import Mathlib

/-
Shallow embedding of the bevy_easy_stats stat store.

The value universe `StatData` covers the numeric catalog of
src/implementations.rs: unsigned and signed integers of widths
8/16/32/64/128, f32/f64 and std::time::Duration.  Unsigned values are
modelled as `Nat` (the Rust values always lie in range and the store
operations never create out-of-range values from in-range ones), signed
values as `Int`, float payloads as raw bit patterns (`Nat`).  The IEEE
float arithmetic itself is not reproduced; instead every operation takes
a `FloatOps` parameter supplying the binary32/binary64 add and sub on
bit patterns, and all theorems hold for an arbitrary such parameter.

A Rust panic is modelled as `none`: `StatData.add`/`StatData.sub` return
`Option StatData` because `Duration + Duration` and `Duration - Duration`
panic on overflow/underflow in Rust.  Signed integer `+=`/`-=` is
modelled with twos-complement wrapping (release-build semantics; under
debug assertions the same inputs panic, which equally contradicts
saturation).  Unsigned integers use `saturating_add`/`saturating_sub`
exactly as the source does.

`Stats` (a `HashMap<String, Box<dyn StatData>>` in the source) is
modelled as an association list `List (String × StatData)`; lookup takes
the first matching key, update replaces it in place, and a fresh key is
appended at the end (the position of a fresh hash-map entry is
unobservable through the API).
-/

/-- Uninterpreted IEEE-754 arithmetic on raw bit patterns.  The source
performs `*self += other` / `*self -= other` on `f32`/`f64`; theorems are
stated for every possible choice of these four functions. -/
structure FloatOps where
  add32 : Nat → Nat → Nat
  sub32 : Nat → Nat → Nat
  add64 : Nat → Nat → Nat
  sub64 : Nat → Nat → Nat

/-- Runtime kind identity of a stat value (the `TypeId` used by
`downcast_ref` in the source). -/
inductive StatKind where
  | u8
  | u16
  | u32
  | u64
  | u128
  | i8
  | i16
  | i32
  | i64
  | i128
  | f32
  | f64
  | duration
deriving DecidableEq, Repr

/-- A stat value: one inhabitant of the numeric catalog implemented in
src/implementations.rs.  Duration is stored as total nanoseconds. -/
inductive StatData where
  | u8 (v : Nat)
  | u16 (v : Nat)
  | u32 (v : Nat)
  | u64 (v : Nat)
  | u128 (v : Nat)
  | i8 (v : Int)
  | i16 (v : Int)
  | i32 (v : Int)
  | i64 (v : Int)
  | i128 (v : Int)
  | f32 (bits : Nat)
  | f64 (bits : Nat)
  | duration (nanos : Nat)
deriving DecidableEq, Repr

def u8Max : Nat := 2 ^ 8 - 1

def u16Max : Nat := 2 ^ 16 - 1

def u32Max : Nat := 2 ^ 32 - 1

def u64Max : Nat := 2 ^ 64 - 1

def u128Max : Nat := 2 ^ 128 - 1

/-- Largest representable `std::time::Duration`, in nanoseconds:
`u64::MAX` seconds plus `999_999_999` nanoseconds. -/
def durationMax : Nat := u64Max * 1000000000 + 999999999

/-- Twos-complement wrap of an integer into the signed range of width
`w`: the behavior of Rust `+=`/`-=` on `iN` in release builds. -/
def wrapInt (w : Nat) (x : Int) : Int :=
  (x + 2 ^ (w - 1)) % 2 ^ w - 2 ^ (w - 1)

/-- The runtime kind of a value (what `downcast_ref::<T>` checks). -/
def StatData.kind : StatData → StatKind
  | .u8 _ => .u8
  | .u16 _ => .u16
  | .u32 _ => .u32
  | .u64 _ => .u64
  | .u128 _ => .u128
  | .i8 _ => .i8
  | .i16 _ => .i16
  | .i32 _ => .i32
  | .i64 _ => .i64
  | .i128 _ => .i128
  | .f32 _ => .f32
  | .f64 _ => .f64
  | .duration _ => .duration

/-- `StatData::default(&self)`: each impl in src/implementations.rs
returns a boxed zero of its own kind (`Box::new(0u64)`,
`Box::new(Duration::ZERO)`, ...). -/
def StatData.default : StatData → StatData
  | .u8 _ => .u8 0
  | .u16 _ => .u16 0
  | .u32 _ => .u32 0
  | .u64 _ => .u64 0
  | .u128 _ => .u128 0
  | .i8 _ => .i8 0
  | .i16 _ => .i16 0
  | .i32 _ => .i32 0
  | .i64 _ => .i64 0
  | .i128 _ => .i128 0
  | .f32 _ => .f32 0
  | .f64 _ => .f64 0
  | .duration _ => .duration 0

/-- `StatData::add(&mut self, other)`.  Every impl first tries
`other.downcast_ref::<Self>()`; on kind mismatch it does nothing.  On a
match: unsigned use `saturating_add`, signed use plain `+=` (wrapping),
floats use IEEE `+=` (the `FloatOps` parameter), `Duration` uses `+=`
which panics (`none`) past `Duration::MAX`. -/
def StatData.add (F : FloatOps) : StatData → StatData → Option StatData
  | .u8 a, .u8 b => some (.u8 (min (a + b) u8Max))
  | .u16 a, .u16 b => some (.u16 (min (a + b) u16Max))
  | .u32 a, .u32 b => some (.u32 (min (a + b) u32Max))
  | .u64 a, .u64 b => some (.u64 (min (a + b) u64Max))
  | .u128 a, .u128 b => some (.u128 (min (a + b) u128Max))
  | .i8 a, .i8 b => some (.i8 (wrapInt 8 (a + b)))
  | .i16 a, .i16 b => some (.i16 (wrapInt 16 (a + b)))
  | .i32 a, .i32 b => some (.i32 (wrapInt 32 (a + b)))
  | .i64 a, .i64 b => some (.i64 (wrapInt 64 (a + b)))
  | .i128 a, .i128 b => some (.i128 (wrapInt 128 (a + b)))
  | .f32 a, .f32 b => some (.f32 (F.add32 a b))
  | .f64 a, .f64 b => some (.f64 (F.add64 a b))
  | .duration a, .duration b =>
      if a + b ≤ durationMax then some (.duration (a + b)) else none
  | s, _ => some s

/-- `StatData::sub(&mut self, other)`.  Kind mismatch: no-op.  Match:
unsigned `saturating_sub`, signed plain `-=` (wrapping), floats IEEE,
`Duration` uses `-=` which panics (`none`) when `other > self`. -/
def StatData.sub (F : FloatOps) : StatData → StatData → Option StatData
  | .u8 a, .u8 b => some (.u8 (a - b))
  | .u16 a, .u16 b => some (.u16 (a - b))
  | .u32 a, .u32 b => some (.u32 (a - b))
  | .u64 a, .u64 b => some (.u64 (a - b))
  | .u128 a, .u128 b => some (.u128 (a - b))
  | .i8 a, .i8 b => some (.i8 (wrapInt 8 (a - b)))
  | .i16 a, .i16 b => some (.i16 (wrapInt 16 (a - b)))
  | .i32 a, .i32 b => some (.i32 (wrapInt 32 (a - b)))
  | .i64 a, .i64 b => some (.i64 (wrapInt 64 (a - b)))
  | .i128 a, .i128 b => some (.i128 (wrapInt 128 (a - b)))
  | .f32 a, .f32 b => some (.f32 (F.sub32 a b))
  | .f64 a, .f64 b => some (.f64 (F.sub64 a b))
  | .duration a, .duration b =>
      if b ≤ a then some (.duration (a - b)) else none
  | s, _ => some s

/-- The `Stats` store: `HashMap<String, Box<dyn StatData>>` modelled as
an association list. -/
abbrev Stats : Type := List (String × StatData)

/-- `self.stats.get(stat_id)`: first entry with the given key
(`Stats::get_stat_manual`). -/
def get_stat_manual : Stats → String → Option StatData
  | [], _ => none
  | (k, v) :: rest, id => if k = id then some v else get_stat_manual rest id

/-- Replace the value stored at a present key, in place (the mutation of
the slot obtained from `entry(...)` / `get_mut`). -/
def updateAt : Stats → String → StatData → Stats
  | [], _, _ => []
  | (k, v) :: rest, id, nv =>
      if k = id then (k, nv) :: rest else (k, v) :: updateAt rest id nv

/-- `Stats::add_to_stat_manual`: `entry(id).or_insert(data.default())`
then `stat.add(data)`. -/
def add_to_stat_manual (F : FloatOps) (s : Stats) (id : String)
    (d : StatData) : Option Stats :=
  match get_stat_manual s id with
  | some v => (StatData.add F v d).map (updateAt s id)
  | none => (StatData.add F d.default d).map (fun nv => s ++ [(id, nv)])

/-- `Stats::sub_from_stat_manual`: `entry(id).or_insert(data.default())`
then `stat.sub(data)`. -/
def sub_from_stat_manual (F : FloatOps) (s : Stats) (id : String)
    (d : StatData) : Option Stats :=
  match get_stat_manual s id with
  | some v => (StatData.sub F v d).map (updateAt s id)
  | none => (StatData.sub F d.default d).map (fun nv => s ++ [(id, nv)])

/-- `Stats::set_stat_manual`: `self.stats.insert(id, data)` — replaces
the slot if present, creates it otherwise. -/
def set_stat_manual (s : Stats) (id : String) (d : StatData) : Stats :=
  match get_stat_manual s id with
  | some _ => updateAt s id d
  | none => s ++ [(id, d)]

/-- `Stats::remove_stat_manual`: `self.stats.remove(id)`. -/
def remove_stat_manual : Stats → String → Stats
  | [], _ => []
  | (k, v) :: rest, id =>
      if k = id then remove_stat_manual rest id
      else (k, v) :: remove_stat_manual rest id

/-- `Stats::reset_stat_manual`: if the slot exists, `*stat =
stat.default()`; otherwise do nothing. -/
def reset_stat_manual (s : Stats) (id : String) : Stats :=
  match get_stat_manual s id with
  | none => s
  | some v => updateAt s id v.default

/-- `Stats::get_stat_downcast::<T>`: look the slot up, then
`downcast_ref::<T>` — `some` exactly when the runtime kind matches. -/
def get_stat_downcast (s : Stats) (id : String) (k : StatKind) :
    Option StatData :=
  match get_stat_manual s id with
  | none => none
  | some v => if v.kind = k then some v else none

/-- The `ModificationType` verb of src/stat_modification.rs. -/
inductive ModificationType where
  | Add (d : StatData)
  | Sub (d : StatData)
  | Remove
  | Reset
  | Set (d : StatData)
deriving DecidableEq, Repr

/-- A world entity as seen by `modify_entity_stat` in src/commands.rs:
an entity either exists or not, and if it exists it either carries the
targeted `Stats`-bearing component or not. -/
abbrev CommandWorld : Type := List (Nat × Option Stats)

/-- `world.get_entity_mut(entity)` on the modelled world. -/
def getEntity : CommandWorld → Nat → Option (Option Stats)
  | [], _ => none
  | (e, c) :: rest, id => if e = id then some c else getEntity rest id

/-- Replace the component state of a present entity. -/
def setEntity : CommandWorld → Nat → Stats → CommandWorld
  | [], _, _ => []
  | (e, c) :: rest, id, st =>
      if e = id then (e, some st) :: rest else (e, c) :: setEntity rest id st

/-- The queued entity command of src/commands.rs (`modify_entity_stat`):
if the entity is gone, or it lacks the component, do nothing; otherwise
dispatch the verb to the matching `Stats` primitive. -/
def modify_entity_stat (F : FloatOps) (w : CommandWorld) (entity : Nat)
    (stat_id : String) (m : ModificationType) : Option CommandWorld :=
  match getEntity w entity with
  | none => some w
  | some none => some w
  | some (some stats) =>
      match m with
      | .Add d => (add_to_stat_manual F stats stat_id d).map (setEntity w entity)
      | .Sub d => (sub_from_stat_manual F stats stat_id d).map (setEntity w entity)
      | .Remove => some (setEntity w entity (remove_stat_manual stats stat_id))
      | .Set d => some (setEntity w entity (set_stat_manual stats stat_id d))
      | .Reset => some (setEntity w entity (reset_stat_manual stats stat_id))

/-- A `ModifyStat<R>` event of src/events.rs. -/
structure ModifyStat where
  stat_id : String
  modification_type : ModificationType
deriving DecidableEq, Repr

/-- The loop body of `handle_stat_modifications` in src/events.rs: the
`match` on `event.modification_type` dispatching to the `Stats`
primitive named by the verb. -/
def handle_one_event (F : FloatOps) (st : Stats) (ev : ModifyStat) :
    Option Stats :=
  match ev.modification_type with
  | .Add d => add_to_stat_manual F st ev.stat_id d
  | .Sub d => sub_from_stat_manual F st ev.stat_id d
  | .Remove => some (remove_stat_manual st ev.stat_id)
  | .Set d => some (set_stat_manual st ev.stat_id d)
  | .Reset => some (reset_stat_manual st ev.stat_id)

/-- The event drain system `handle_stat_modifications` of src/events.rs:
a single `for` pass over `event_reader.read()` in submission order,
running the loop body on each event. -/
def handle_stat_modifications (F : FloatOps) (stats : Stats)
    (events : List ModifyStat) : Option Stats :=
  events.foldl (fun acc ev => acc.bind fun st => handle_one_event F st ev)
    (some stats)

/-- Modelled from the spec (§4.3): applying one `Mod` verb to a `Stats`
is verb dispatch to the corresponding §4.2 primitive. -/
def applyModSpec (F : FloatOps) (s : Stats) (id : String) :
    ModificationType → Option Stats
  | .Add d => add_to_stat_manual F s id d
  | .Sub d => sub_from_stat_manual F s id d
  | .Remove => some (remove_stat_manual s id)
  | .Set d => some (set_stat_manual s id d)
  | .Reset => some (reset_stat_manual s id)

/-- Modelled from the spec (§4.5, property 8): the pending verbs are
applied sequentially left-to-right, each exactly once. -/
def applyEventsSpec (F : FloatOps) (s : Stats) :
    List ModifyStat → Option Stats
  | [] => some s
  | e :: rest =>
      match applyModSpec F s e.stat_id e.modification_type with
      | none => none
      | some s' => applyEventsSpec F s' rest

/-- A concrete instance of the uninterpreted float arithmetic, used only
to instantiate universally quantified theorems at closed inputs. -/
def fopsArb : FloatOps := ⟨fun a _ => a, fun a _ => a, fun a _ => a, fun a _ => a⟩

/-! ### Store lemmas -/

theorem get_update_self (s : Stats) (id : String) (v w : StatData)
    (h : get_stat_manual s id = some v) :
    get_stat_manual (updateAt s id w) id = some w := by
  induction s with
  | nil => simp [get_stat_manual] at h
  | cons p rest ih =>
      obtain ⟨k, u⟩ := p
      by_cases hk : k = id
      · simp [get_stat_manual, updateAt, hk]
      · simp [get_stat_manual, updateAt, hk] at h ⊢
        exact ih h

theorem update_self_eq (s : Stats) (id : String) (v : StatData)
    (h : get_stat_manual s id = some v) : updateAt s id v = s := by
  induction s with
  | nil => rfl
  | cons p rest ih =>
      obtain ⟨k, u⟩ := p
      by_cases hk : k = id
      · simp [get_stat_manual, hk] at h
        simp [updateAt, hk, h]
      · simp [get_stat_manual, hk] at h
        simp [updateAt, hk, ih h]

theorem get_update_ne (s : Stats) (id id' : String) (w : StatData)
    (h : id' ≠ id) :
    get_stat_manual (updateAt s id w) id' = get_stat_manual s id' := by
  induction s with
  | nil => rfl
  | cons p rest ih =>
      obtain ⟨k, u⟩ := p
      by_cases hk : k = id
      · subst hk
        simp [get_stat_manual, updateAt, Ne.symm h]
      · by_cases hk' : k = id'
        · simp [get_stat_manual, updateAt, hk, hk', h]
        · simp [get_stat_manual, updateAt, hk, hk', ih]

theorem get_append_self (s : Stats) (id : String) (v : StatData)
    (h : get_stat_manual s id = none) :
    get_stat_manual (s ++ [(id, v)]) id = some v := by
  induction s with
  | nil => simp [get_stat_manual]
  | cons p rest ih =>
      obtain ⟨k, u⟩ := p
      by_cases hk : k = id
      · simp [get_stat_manual, hk] at h
      · simp [get_stat_manual, hk] at h ⊢
        exact ih h

theorem get_append_ne (s : Stats) (id id' : String) (v : StatData)
    (h : id' ≠ id) :
    get_stat_manual (s ++ [(id, v)]) id' = get_stat_manual s id' := by
  induction s with
  | nil => simp [get_stat_manual, Ne.symm h]
  | cons p rest ih =>
      obtain ⟨k, u⟩ := p
      by_cases hk : k = id'
      · simp [get_stat_manual, hk]
      · simp [get_stat_manual, hk, ih]

theorem update_update (s : Stats) (id : String) (a b : StatData) :
    updateAt (updateAt s id a) id b = updateAt s id b := by
  induction s with
  | nil => rfl
  | cons p rest ih =>
      obtain ⟨k, u⟩ := p
      by_cases hk : k = id
      · simp [updateAt, hk]
      · simp [updateAt, hk, ih]

theorem get_remove_ne (s : Stats) (id id' : String) (h : id' ≠ id) :
    get_stat_manual (remove_stat_manual s id) id' = get_stat_manual s id' := by
  induction s with
  | nil => rfl
  | cons p rest ih =>
      obtain ⟨k, u⟩ := p
      by_cases hk : k = id
      · subst hk
        simp [get_stat_manual, remove_stat_manual, Ne.symm h, ih]
      · by_cases hk' : k = id'
        · simp [get_stat_manual, remove_stat_manual, hk, hk', h]
        · simp [get_stat_manual, remove_stat_manual, hk, hk', ih]

theorem get_set_self (s : Stats) (id : String) (d : StatData) :
    get_stat_manual (set_stat_manual s id d) id = some d := by
  unfold set_stat_manual
  cases h : get_stat_manual s id with
  | none => exact get_append_self s id d h
  | some v => exact get_update_self s id v d h

/-! ### Value-kernel lemmas -/

theorem default_default (v : StatData) : v.default.default = v.default := by
  cases v <;> rfl

theorem default_kind (v : StatData) : v.default.kind = v.kind := by
  cases v <;> rfl

theorem add_duration_eq (F : FloatOps) (x y : Nat) :
    StatData.add F (.duration x) (.duration y)
      = if x + y ≤ durationMax then some (.duration (x + y)) else none := rfl

theorem sub_duration_eq (F : FloatOps) (x y : Nat) :
    StatData.sub F (.duration x) (.duration y)
      = if y ≤ x then some (.duration (x - y)) else none := rfl

theorem add_mismatch (F : FloatOps) (v w : StatData)
    (h : w.kind ≠ v.kind) : StatData.add F v w = some v := by
  cases v <;> cases w <;> first
    | rfl
    | exact absurd rfl h

theorem sub_mismatch (F : FloatOps) (v w : StatData)
    (h : w.kind ≠ v.kind) : StatData.sub F v w = some v := by
  cases v <;> cases w <;> first
    | rfl
    | exact absurd rfl h

theorem add_kind (F : FloatOps) (a b c : StatData)
    (h : StatData.add F a b = some c) : c.kind = a.kind := by
  cases a <;> cases b <;> first
    | (have h2 := Option.some.inj h
       subst h2
       rfl)
    | (rw [add_duration_eq] at h
       split at h
       · have h2 := Option.some.inj h
         subst h2
         rfl
       · exact Option.noConfusion h)

theorem wrapInt_eq_self (w : Nat) (hw : 1 ≤ w) (x : Int)
    (h1 : -(2 ^ (w - 1)) ≤ x) (h2 : x < 2 ^ (w - 1)) : wrapInt w x = x := by
  unfold wrapInt
  have hy1 : (0 : Int) ≤ x + 2 ^ (w - 1) := by linarith
  have hpow : (2 : Int) ^ (w - 1) + 2 ^ (w - 1) = 2 ^ w := by
    have hw' : w - 1 + 1 = w := Nat.succ_pred_eq_of_pos hw
    calc (2 : Int) ^ (w - 1) + 2 ^ (w - 1) = 2 ^ (w - 1) * 2 := by ring
    _ = 2 ^ (w - 1 + 1) := (pow_succ 2 (w - 1)).symm
    _ = 2 ^ w := by rw [hw']
  have hy2 : x + 2 ^ (w - 1) < 2 ^ w := by linarith
  rw [Int.emod_eq_of_lt hy1 hy2]
  ring

/-! ### Operation-shape lemmas -/

theorem add_present (F : FloatOps) (s : Stats) (id : String) (v d u : StatData)
    (h : get_stat_manual s id = some v) (hadd : StatData.add F v d = some u) :
    add_to_stat_manual F s id d = some (updateAt s id u) := by
  unfold add_to_stat_manual
  rw [h]
  simp [hadd]

theorem sub_present (F : FloatOps) (s : Stats) (id : String) (v d u : StatData)
    (h : get_stat_manual s id = some v) (hsub : StatData.sub F v d = some u) :
    sub_from_stat_manual F s id d = some (updateAt s id u) := by
  unfold sub_from_stat_manual
  rw [h]
  simp [hsub]

theorem add_absent (F : FloatOps) (s : Stats) (id : String) (d u : StatData)
    (h : get_stat_manual s id = none)
    (hadd : StatData.add F d.default d = some u) :
    add_to_stat_manual F s id d = some (s ++ [(id, u)]) := by
  unfold add_to_stat_manual
  rw [h]
  simp [hadd]

theorem get_downcast_of_get (s : Stats) (id : String) (v : StatData)
    (h : get_stat_manual s id = some v) :
    get_stat_downcast s id v.kind = some v := by
  unfold get_stat_downcast
  rw [h]
  simp

theorem get_downcast_ne_kind (s : Stats) (id : String) (v : StatData)
    (k : StatKind) (h : get_stat_manual s id = some v) (hk : v.kind ≠ k) :
    get_stat_downcast s id k = none := by
  unfold get_stat_downcast
  rw [h]
  simp [hk]

/-! ### Claim theorems -/

/-- Claim C1: kind-lock under add/sub.  Once the slot at `id` holds a
value `v` of kind K1, an `add_to_stat` or `sub_from_stat` with a value
`w` of any different kind K2 leaves the whole store unchanged (so in
particular `get_stat_downcast` at K1 still returns `v`), and never
panics. -/
theorem kind_lock_add_sub (F : FloatOps) (s : Stats) (id : String)
    (v w : StatData) (hv : get_stat_manual s id = some v)
    (hk : w.kind ≠ v.kind) :
    add_to_stat_manual F s id w = some s ∧
    sub_from_stat_manual F s id w = some s ∧
    get_stat_downcast s id v.kind = some v := by
  refine ⟨?_, ?_, get_downcast_of_get s id v hv⟩
  · rw [add_present F s id v w v hv (add_mismatch F v w hk)]
    rw [update_self_eq s id v hv]
  · rw [sub_present F s id v w v hv (sub_mismatch F v w hk)]
    rw [update_self_eq s id v hv]

/-- Witness for C1 at a concrete input: a `u64` slot survives an add and
a sub of an `f32` value untouched. -/
theorem kind_lock_add_sub_witness :
    add_to_stat_manual fopsArb [("k", .u64 3)] "k" (.f32 7)
      = some [("k", .u64 3)] ∧
    sub_from_stat_manual fopsArb [("k", .u64 3)] "k" (.f32 7)
      = some [("k", .u64 3)] ∧
    get_stat_downcast [("k", .u64 3)] "k" .u64 = some (.u64 3) :=
  kind_lock_add_sub fopsArb [("k", .u64 3)] "k" (.u64 3) (.f32 7)
    (by decide) (by decide)

/-- Claim C3 (failing input): `Duration` subtraction underflow panics.
With the slot holding 5 s and `sub` of 7 s, the source runs
`*self -= *other`, whose `Duration` implementation panics on underflow
(`none` here); it neither clamps to zero nor no-ops. -/
theorem duration_sub_underflow_panics :
    sub_from_stat_manual fopsArb [("d", .duration 5000000000)] "d"
        (.duration 7000000000) = none ∧
    StatData.sub fopsArb (.duration 5000000000) (.duration 7000000000)
      = none := by
  constructor
  · rfl
  · rfl

/-- Reset on an absent key returns the store unchanged. -/
theorem reset_absent (s : Stats) (id : String)
    (h : get_stat_manual s id = none) : reset_stat_manual s id = s := by
  unfold reset_stat_manual
  rw [h]

theorem reset_present (s : Stats) (id : String) (v : StatData)
    (h : get_stat_manual s id = some v) :
    reset_stat_manual s id = updateAt s id v.default := by
  unfold reset_stat_manual
  rw [h]

/-- Claim C7: reset is idempotent, and on an absent key it is a complete
no-op — it never creates a slot. -/
theorem reset_idempotent_no_create (s : Stats) (id : String) :
    reset_stat_manual (reset_stat_manual s id) id = reset_stat_manual s id ∧
    (get_stat_manual s id = none → reset_stat_manual s id = s) := by
  refine ⟨?_, fun h => reset_absent s id h⟩
  cases h : get_stat_manual s id with
  | none =>
      rw [reset_absent s id h, reset_absent s id h]
  | some v =>
      have h1 : reset_stat_manual s id = updateAt s id v.default :=
        reset_present s id v h
      have h2 : get_stat_manual (updateAt s id v.default) id
          = some v.default := get_update_self s id v v.default h
      rw [h1, reset_present (updateAt s id v.default) id v.default h2,
        default_default, update_update]

/-- Witness for C7 at concrete inputs: double reset of a present slot
equals a single reset, and reset of an absent key leaves the store
untouched. -/
theorem reset_idempotent_no_create_witness :
    (reset_stat_manual (reset_stat_manual [("a", .u64 5)] "a") "a"
      = reset_stat_manual [("a", .u64 5)] "a") ∧
    reset_stat_manual [("a", .u64 5)] "b" = [("a", .u64 5)] :=
  ⟨(reset_idempotent_no_create [("a", .u64 5)] "a").1,
   (reset_idempotent_no_create [("a", .u64 5)] "b").2 (by decide)⟩

/-- Claim C8: a queued stat-modification command flushed against a
missing target — the entity no longer exists, or it exists but lacks the
`Stats`-bearing component — performs no mutation and does not panic: the
world is returned exactly as it was. -/
theorem command_drop_missing_target (F : FloatOps) (w : CommandWorld)
    (e : Nat) (id : String) (m : ModificationType)
    (h : getEntity w e = none ∨ getEntity w e = some none) :
    modify_entity_stat F w e id m = some w := by
  unfold modify_entity_stat
  cases h with
  | inl h => rw [h]
  | inr h => rw [h]

/-- Witness for C8 at concrete inputs: a `Set` command against a
despawned entity and an `Add` command against an entity without the
component both leave the world untouched. -/
theorem command_drop_missing_target_witness :
    modify_entity_stat fopsArb [(1, none)] 2 "k" (.Set (.u64 9))
      = some [(1, none)] ∧
    modify_entity_stat fopsArb [(1, none)] 1 "k" (.Add (.u64 9))
      = some [(1, none)] :=
  ⟨command_drop_missing_target fopsArb [(1, none)] 2 "k" (.Set (.u64 9))
      (Or.inl (by decide)),
   command_drop_missing_target fopsArb [(1, none)] 1 "k" (.Add (.u64 9))
      (Or.inr (by decide))⟩

theorem set_present (s : Stats) (id : String) (d v : StatData)
    (h : get_stat_manual s id = some v) :
    set_stat_manual s id d = updateAt s id d := by
  unfold set_stat_manual
  rw [h]

theorem set_absent (s : Stats) (id : String) (d : StatData)
    (h : get_stat_manual s id = none) :
    set_stat_manual s id d = s ++ [(id, d)] := by
  unfold set_stat_manual
  rw [h]

/-- Claim C10: frame property.  Each of the five mutating primitives
invoked with key `id` changes at most the entry for `id`: the lookup of
every other key `id'` is unchanged (for `add`/`sub`, whenever the
operation completes). -/
theorem mutating_primitives_frame (F : FloatOps) (s : Stats)
    (id id' : String) (h : id' ≠ id) :
    (∀ d s', add_to_stat_manual F s id d = some s' →
      get_stat_manual s' id' = get_stat_manual s id') ∧
    (∀ d s', sub_from_stat_manual F s id d = some s' →
      get_stat_manual s' id' = get_stat_manual s id') ∧
    (∀ d, get_stat_manual (set_stat_manual s id d) id'
      = get_stat_manual s id') ∧
    get_stat_manual (remove_stat_manual s id) id' = get_stat_manual s id' ∧
    get_stat_manual (reset_stat_manual s id) id' = get_stat_manual s id' := by
  refine ⟨?_, ?_, ?_, get_remove_ne s id id' h, ?_⟩
  · intro d s' hs
    unfold add_to_stat_manual at hs
    cases hget : get_stat_manual s id with
    | some v =>
        rw [hget] at hs
        simp only [Option.map_eq_some'] at hs
        obtain ⟨u, _, hu⟩ := hs
        subst hu
        exact get_update_ne s id id' u h
    | none =>
        rw [hget] at hs
        simp only [Option.map_eq_some'] at hs
        obtain ⟨u, _, hu⟩ := hs
        subst hu
        exact get_append_ne s id id' u h
  · intro d s' hs
    unfold sub_from_stat_manual at hs
    cases hget : get_stat_manual s id with
    | some v =>
        rw [hget] at hs
        simp only [Option.map_eq_some'] at hs
        obtain ⟨u, _, hu⟩ := hs
        subst hu
        exact get_update_ne s id id' u h
    | none =>
        rw [hget] at hs
        simp only [Option.map_eq_some'] at hs
        obtain ⟨u, _, hu⟩ := hs
        subst hu
        exact get_append_ne s id id' u h
  · intro d
    cases hget : get_stat_manual s id with
    | some v =>
        rw [set_present s id d v hget]
        exact get_update_ne s id id' d h
    | none =>
        rw [set_absent s id d hget]
        exact get_append_ne s id id' d h
  · cases hget : get_stat_manual s id with
    | some v =>
        rw [reset_present s id v hget]
        exact get_update_ne s id id' v.default h
    | none =>
        rw [reset_absent s id hget]

/-- Witness for C10 at concrete inputs: mutating key `a` leaves the
lookup of key `b` unchanged, here for the `set` and `add` primitives. -/
theorem mutating_primitives_frame_witness :
    get_stat_manual
        (set_stat_manual [("a", .u64 1), ("b", .u64 2)] "a" (.u64 9)) "b"
      = get_stat_manual [("a", .u64 1), ("b", .u64 2)] "b" ∧
    get_stat_manual [("a", .u64 10), ("b", .u64 2)] "b"
      = get_stat_manual [("a", .u64 1), ("b", .u64 2)] "b" :=
  ⟨(mutating_primitives_frame fopsArb [("a", .u64 1), ("b", .u64 2)]
      "a" "b" (by decide)).2.2.1 (.u64 9),
   (mutating_primitives_frame fopsArb [("a", .u64 1), ("b", .u64 2)]
      "a" "b" (by decide)).1 (.u64 9) [("a", .u64 10), ("b", .u64 2)]
      (by decide)⟩

/-- Claim C6 counterexample: instantiating the claim at K1 = K2 = `u64`
(the claim quantifies over any pair of primitive kinds) makes it false:
after `set_stat` of a `u64` onto an existing `u64` slot, the downcast at
K1 = `u64` returns the new value, not `None`. -/
theorem set_stat_kind_counterexample :
    get_stat_downcast [("k", .u64 1)] "k" .u64 = some (.u64 1) ∧
    ¬ (get_stat_downcast (set_stat_manual [("k", .u64 1)] "k" (.u64 2)) "k"
          .u64 = some (.u64 2) ∧
       get_stat_downcast (set_stat_manual [("k", .u64 1)] "k" (.u64 2)) "k"
          .u64 = none) := by
  decide

/-- Claim C6 (amended): for distinct kinds K1 ≠ K2, `set_stat`
unconditionally replaces an existing K1 slot with the K2 value `b`:
afterwards the downcast at K2 returns `b` and the downcast at K1 returns
`None`.  (For K1 = K2 the downcast at K1 returns the new value.) -/
theorem set_changes_kind (s : Stats) (id : String) (v b : StatData)
    (hv : get_stat_manual s id = some v) (hk : v.kind ≠ b.kind) :
    get_stat_downcast (set_stat_manual s id b) id b.kind = some b ∧
    get_stat_downcast (set_stat_manual s id b) id v.kind = none := by
  have hset : get_stat_manual (set_stat_manual s id b) id = some b :=
    get_set_self s id b
  exact ⟨get_downcast_of_get _ id b hset,
    get_downcast_ne_kind _ id b v.kind hset (Ne.symm hk)⟩

/-- Witness for the amended C6 at a concrete input: setting an `f32`
over a `u64` slot rebinds the kind. -/
theorem set_changes_kind_witness :
    get_stat_downcast (set_stat_manual [("k", .u64 1)] "k" (.f32 5)) "k"
        .f32 = some (.f32 5) ∧
    get_stat_downcast (set_stat_manual [("k", .u64 1)] "k" (.f32 5)) "k"
        .u64 = none :=
  set_changes_kind [("k", .u64 1)] "k" (.u64 1) (.f32 5)
    (by decide) (by decide)

/-- Claim C4: `add_to_stat` on an absent key inserts the zero of the value
and then adds the value — the new slot holds `zero + v` and has the
kind of the value; on a fresh store, `add 5u64` then `add 10u64` yields
`get_stat_downcast::<u64> = Some(15)`. -/
theorem add_to_absent_key (F : FloatOps) (s : Stats) (id : String)
    (v nv : StatData) (h : get_stat_manual s id = none)
    (hzero : StatData.add F v.default v = some nv) :
    (add_to_stat_manual F s id v = some (s ++ [(id, nv)]) ∧
      get_stat_manual (s ++ [(id, nv)]) id = some nv ∧
      nv.kind = v.kind) ∧
    ((add_to_stat_manual F [] "Enemies Killed" (.u64 5)).bind
        (fun s1 => add_to_stat_manual F s1 "Enemies Killed" (.u64 10))
      = some [("Enemies Killed", .u64 15)] ∧
      get_stat_downcast [("Enemies Killed", .u64 15)] "Enemies Killed" .u64
        = some (.u64 15)) := by
  refine ⟨⟨add_absent F s id v nv h hzero, get_append_self s id nv h, ?_⟩,
    ?_, ?_⟩
  · rw [add_kind F v.default v nv hzero, default_kind]
  · rfl
  · rfl

/-- Witness for C4 at a concrete input: adding `5u64` to a fresh store
creates the slot holding `0 + 5 = 5`. -/
theorem add_to_absent_key_witness :
    add_to_stat_manual fopsArb [] "k" (.u64 5) = some [("k", .u64 5)] ∧
    get_stat_manual [("k", .u64 5)] "k" = some (.u64 5) :=
  ⟨((add_to_absent_key fopsArb [] "k" (.u64 5) (.u64 5) (by decide)
      (by decide)).1).1,
   ((add_to_absent_key fopsArb [] "k" (.u64 5) (.u64 5) (by decide)
      (by decide)).1).2.1⟩

/-- Claim C2 counterexample: signed integers do not saturate.  After
`set(id, 127i8)` (i8::MAX), `add(id, 1i8)` stores `-128` — the plain
`+=` of the i8 impl wraps (release) or panics (debug); it never yields
the saturated value `127`. -/
theorem signed_overflow_counterexample :
    add_to_stat_manual fopsArb (set_stat_manual [] "x" (.i8 127)) "x"
        (.i8 1) = some [("x", .i8 (-128))] ∧
    add_to_stat_manual fopsArb (set_stat_manual [] "x" (.i8 127)) "x"
        (.i8 1) ≠ some [("x", .i8 127)] := by
  decide

theorem set_then_add_slot (F : FloatOps) (s : Stats) (id : String)
    (a b c : StatData) (hadd : StatData.add F a b = some c) :
    ∃ s', add_to_stat_manual F (set_stat_manual s id a) id b = some s' ∧
      get_stat_downcast s' id c.kind = some c := by
  have h1 : get_stat_manual (set_stat_manual s id a) id = some a :=
    get_set_self s id a
  exact ⟨updateAt (set_stat_manual s id a) id c,
    add_present F _ id a b c h1 hadd,
    get_downcast_of_get _ id c (get_update_self _ id a c h1)⟩

theorem set_then_sub_slot (F : FloatOps) (s : Stats) (id : String)
    (a b c : StatData) (hsub : StatData.sub F a b = some c) :
    ∃ s', sub_from_stat_manual F (set_stat_manual s id a) id b = some s' ∧
      get_stat_downcast s' id c.kind = some c := by
  have h1 : get_stat_manual (set_stat_manual s id a) id = some a :=
    get_set_self s id a
  exact ⟨updateAt (set_stat_manual s id a) id c,
    sub_present F _ id a b c h1 hsub,
    get_downcast_of_get _ id c (get_update_self _ id a c h1)⟩

/-- Claim C2 (amended): the unsigned kinds saturate at the type bounds
exactly as claimed — after `set(id, K::MAX)`, `add(id, v)` with `v > 0`
leaves `K::MAX`, and after `set(id, 0)`, `sub(id, v)` leaves `0`, with
no error — while the signed kinds perform plain twos-complement
add/sub that wraps on overflow (and panics under debug assertions)
instead of saturating. -/
theorem unsigned_saturation_signed_wrap (F : FloatOps) (s : Stats)
    (id : String) (v : Nat) (hv : 0 < v) :
    ((∃ s', add_to_stat_manual F (set_stat_manual s id (.u8 u8Max)) id
          (.u8 v) = some s' ∧
        get_stat_downcast s' id .u8 = some (.u8 u8Max)) ∧
     (∃ s', add_to_stat_manual F (set_stat_manual s id (.u16 u16Max)) id
          (.u16 v) = some s' ∧
        get_stat_downcast s' id .u16 = some (.u16 u16Max)) ∧
     (∃ s', add_to_stat_manual F (set_stat_manual s id (.u32 u32Max)) id
          (.u32 v) = some s' ∧
        get_stat_downcast s' id .u32 = some (.u32 u32Max)) ∧
     (∃ s', add_to_stat_manual F (set_stat_manual s id (.u64 u64Max)) id
          (.u64 v) = some s' ∧
        get_stat_downcast s' id .u64 = some (.u64 u64Max)) ∧
     (∃ s', add_to_stat_manual F (set_stat_manual s id (.u128 u128Max)) id
          (.u128 v) = some s' ∧
        get_stat_downcast s' id .u128 = some (.u128 u128Max))) ∧
    ((∃ s', sub_from_stat_manual F (set_stat_manual s id (.u8 0)) id
          (.u8 v) = some s' ∧
        get_stat_downcast s' id .u8 = some (.u8 0)) ∧
     (∃ s', sub_from_stat_manual F (set_stat_manual s id (.u16 0)) id
          (.u16 v) = some s' ∧
        get_stat_downcast s' id .u16 = some (.u16 0)) ∧
     (∃ s', sub_from_stat_manual F (set_stat_manual s id (.u32 0)) id
          (.u32 v) = some s' ∧
        get_stat_downcast s' id .u32 = some (.u32 0)) ∧
     (∃ s', sub_from_stat_manual F (set_stat_manual s id (.u64 0)) id
          (.u64 v) = some s' ∧
        get_stat_downcast s' id .u64 = some (.u64 0)) ∧
     (∃ s', sub_from_stat_manual F (set_stat_manual s id (.u128 0)) id
          (.u128 v) = some s' ∧
        get_stat_downcast s' id .u128 = some (.u128 0))) ∧
    ((∀ x y : Int, StatData.add F (.i8 x) (.i8 y)
        = some (.i8 (wrapInt 8 (x + y)))) ∧
     (∀ x y : Int, StatData.add F (.i16 x) (.i16 y)
        = some (.i16 (wrapInt 16 (x + y)))) ∧
     (∀ x y : Int, StatData.add F (.i32 x) (.i32 y)
        = some (.i32 (wrapInt 32 (x + y)))) ∧
     (∀ x y : Int, StatData.add F (.i64 x) (.i64 y)
        = some (.i64 (wrapInt 64 (x + y)))) ∧
     (∀ x y : Int, StatData.add F (.i128 x) (.i128 y)
        = some (.i128 (wrapInt 128 (x + y)))) ∧
     (∀ x y : Int, StatData.sub F (.i8 x) (.i8 y)
        = some (.i8 (wrapInt 8 (x - y)))) ∧
     (∀ x y : Int, StatData.sub F (.i16 x) (.i16 y)
        = some (.i16 (wrapInt 16 (x - y)))) ∧
     (∀ x y : Int, StatData.sub F (.i32 x) (.i32 y)
        = some (.i32 (wrapInt 32 (x - y)))) ∧
     (∀ x y : Int, StatData.sub F (.i64 x) (.i64 y)
        = some (.i64 (wrapInt 64 (x - y)))) ∧
     (∀ x y : Int, StatData.sub F (.i128 x) (.i128 y)
        = some (.i128 (wrapInt 128 (x - y))))) := by
  refine ⟨⟨?_, ?_, ?_, ?_, ?_⟩, ⟨?_, ?_, ?_, ?_, ?_⟩,
    fun x y => rfl, fun x y => rfl, fun x y => rfl, fun x y => rfl,
    fun x y => rfl, fun x y => rfl, fun x y => rfl, fun x y => rfl,
    fun x y => rfl, fun x y => rfl⟩
  · exact set_then_add_slot F s id (.u8 u8Max) (.u8 v) (.u8 u8Max)
      (by show some (StatData.u8 (min (u8Max + v) u8Max))
            = some (StatData.u8 u8Max)
          rw [Nat.min_eq_right (Nat.le_add_right u8Max v)])
  · exact set_then_add_slot F s id (.u16 u16Max) (.u16 v) (.u16 u16Max)
      (by show some (StatData.u16 (min (u16Max + v) u16Max))
            = some (StatData.u16 u16Max)
          rw [Nat.min_eq_right (Nat.le_add_right u16Max v)])
  · exact set_then_add_slot F s id (.u32 u32Max) (.u32 v) (.u32 u32Max)
      (by show some (StatData.u32 (min (u32Max + v) u32Max))
            = some (StatData.u32 u32Max)
          rw [Nat.min_eq_right (Nat.le_add_right u32Max v)])
  · exact set_then_add_slot F s id (.u64 u64Max) (.u64 v) (.u64 u64Max)
      (by show some (StatData.u64 (min (u64Max + v) u64Max))
            = some (StatData.u64 u64Max)
          rw [Nat.min_eq_right (Nat.le_add_right u64Max v)])
  · exact set_then_add_slot F s id (.u128 u128Max) (.u128 v) (.u128 u128Max)
      (by show some (StatData.u128 (min (u128Max + v) u128Max))
            = some (StatData.u128 u128Max)
          rw [Nat.min_eq_right (Nat.le_add_right u128Max v)])
  · exact set_then_sub_slot F s id (.u8 0) (.u8 v) (.u8 0)
      (by show some (StatData.u8 (0 - v)) = some (StatData.u8 0)
          rw [Nat.zero_sub])
  · exact set_then_sub_slot F s id (.u16 0) (.u16 v) (.u16 0)
      (by show some (StatData.u16 (0 - v)) = some (StatData.u16 0)
          rw [Nat.zero_sub])
  · exact set_then_sub_slot F s id (.u32 0) (.u32 v) (.u32 0)
      (by show some (StatData.u32 (0 - v)) = some (StatData.u32 0)
          rw [Nat.zero_sub])
  · exact set_then_sub_slot F s id (.u64 0) (.u64 v) (.u64 0)
      (by show some (StatData.u64 (0 - v)) = some (StatData.u64 0)
          rw [Nat.zero_sub])
  · exact set_then_sub_slot F s id (.u128 0) (.u128 v) (.u128 0)
      (by show some (StatData.u128 (0 - v)) = some (StatData.u128 0)
          rw [Nat.zero_sub])

/-- Witness for the amended C2 at a concrete input: `u8` saturates at
255 under add. -/
theorem unsigned_saturation_signed_wrap_witness :
    ∃ s', add_to_stat_manual fopsArb (set_stat_manual [] "x" (.u8 u8Max))
        "x" (.u8 1) = some s' ∧
      get_stat_downcast s' "x" .u8 = some (.u8 u8Max) :=
  (unsigned_saturation_signed_wrap fopsArb [] "x" 1 (by decide)).1.1

theorem set_add_sub_slot (F : FloatOps) (s : Stats) (id : String)
    (a b c d : StatData) (h1 : StatData.add F a b = some c)
    (h2 : StatData.sub F c b = some d) :
    ∃ s3, (add_to_stat_manual F (set_stat_manual s id a) id b).bind
        (fun s2 => sub_from_stat_manual F s2 id b) = some s3 ∧
      get_stat_downcast s3 id d.kind = some d := by
  have hg1 : get_stat_manual (set_stat_manual s id a) id = some a :=
    get_set_self s id a
  have ha := add_present F (set_stat_manual s id a) id a b c hg1 h1
  have hg2 : get_stat_manual (updateAt (set_stat_manual s id a) id c) id
      = some c := get_update_self (set_stat_manual s id a) id a c hg1
  have hs := sub_present F (updateAt (set_stat_manual s id a) id c) id
    c b d hg2 h2
  refine ⟨updateAt (updateAt (set_stat_manual s id a) id c) id d, ?_, ?_⟩
  · rw [ha]
    exact hs
  · exact get_downcast_of_get _ id d (get_update_self _ id c d hg2)

/-- Claim C5: add-sub cancellation in the non-saturating range.  For
every saturating primitive kind (the ten integer kinds and Duration) and
same-kind values `a`, `b` within range, `set(id,a); add(id,b);
sub(id,b)` completes without error and leaves the slot holding `a`.
For the integer kinds the range hypotheses say `a` and `a+b` are
representable (for unsigned, `(a+b)-b ≥ 0` always holds); for Duration
they say `a+b` does not overflow. -/
theorem add_sub_cancellation (F : FloatOps) (s : Stats) (id : String) :
    (∀ x y : Nat, x + y ≤ u8Max →
      ∃ s3, (add_to_stat_manual F (set_stat_manual s id (.u8 x)) id
            (.u8 y)).bind (fun s2 => sub_from_stat_manual F s2 id (.u8 y))
          = some s3 ∧
        get_stat_downcast s3 id .u8 = some (.u8 x)) ∧
    (∀ x y : Nat, x + y ≤ u16Max →
      ∃ s3, (add_to_stat_manual F (set_stat_manual s id (.u16 x)) id
            (.u16 y)).bind (fun s2 => sub_from_stat_manual F s2 id (.u16 y))
          = some s3 ∧
        get_stat_downcast s3 id .u16 = some (.u16 x)) ∧
    (∀ x y : Nat, x + y ≤ u32Max →
      ∃ s3, (add_to_stat_manual F (set_stat_manual s id (.u32 x)) id
            (.u32 y)).bind (fun s2 => sub_from_stat_manual F s2 id (.u32 y))
          = some s3 ∧
        get_stat_downcast s3 id .u32 = some (.u32 x)) ∧
    (∀ x y : Nat, x + y ≤ u64Max →
      ∃ s3, (add_to_stat_manual F (set_stat_manual s id (.u64 x)) id
            (.u64 y)).bind (fun s2 => sub_from_stat_manual F s2 id (.u64 y))
          = some s3 ∧
        get_stat_downcast s3 id .u64 = some (.u64 x)) ∧
    (∀ x y : Nat, x + y ≤ u128Max →
      ∃ s3, (add_to_stat_manual F (set_stat_manual s id (.u128 x)) id
            (.u128 y)).bind
            (fun s2 => sub_from_stat_manual F s2 id (.u128 y))
          = some s3 ∧
        get_stat_downcast s3 id .u128 = some (.u128 x)) ∧
    (∀ x y : Int, -(2 ^ 7) ≤ x → x < 2 ^ 7 → -(2 ^ 7) ≤ x + y →
        x + y < 2 ^ 7 →
      ∃ s3, (add_to_stat_manual F (set_stat_manual s id (.i8 x)) id
            (.i8 y)).bind (fun s2 => sub_from_stat_manual F s2 id (.i8 y))
          = some s3 ∧
        get_stat_downcast s3 id .i8 = some (.i8 x)) ∧
    (∀ x y : Int, -(2 ^ 15) ≤ x → x < 2 ^ 15 → -(2 ^ 15) ≤ x + y →
        x + y < 2 ^ 15 →
      ∃ s3, (add_to_stat_manual F (set_stat_manual s id (.i16 x)) id
            (.i16 y)).bind (fun s2 => sub_from_stat_manual F s2 id (.i16 y))
          = some s3 ∧
        get_stat_downcast s3 id .i16 = some (.i16 x)) ∧
    (∀ x y : Int, -(2 ^ 31) ≤ x → x < 2 ^ 31 → -(2 ^ 31) ≤ x + y →
        x + y < 2 ^ 31 →
      ∃ s3, (add_to_stat_manual F (set_stat_manual s id (.i32 x)) id
            (.i32 y)).bind (fun s2 => sub_from_stat_manual F s2 id (.i32 y))
          = some s3 ∧
        get_stat_downcast s3 id .i32 = some (.i32 x)) ∧
    (∀ x y : Int, -(2 ^ 63) ≤ x → x < 2 ^ 63 → -(2 ^ 63) ≤ x + y →
        x + y < 2 ^ 63 →
      ∃ s3, (add_to_stat_manual F (set_stat_manual s id (.i64 x)) id
            (.i64 y)).bind (fun s2 => sub_from_stat_manual F s2 id (.i64 y))
          = some s3 ∧
        get_stat_downcast s3 id .i64 = some (.i64 x)) ∧
    (∀ x y : Int, -(2 ^ 127) ≤ x → x < 2 ^ 127 → -(2 ^ 127) ≤ x + y →
        x + y < 2 ^ 127 →
      ∃ s3, (add_to_stat_manual F (set_stat_manual s id (.i128 x)) id
            (.i128 y)).bind
            (fun s2 => sub_from_stat_manual F s2 id (.i128 y))
          = some s3 ∧
        get_stat_downcast s3 id .i128 = some (.i128 x)) ∧
    (∀ x y : Nat, x + y ≤ durationMax →
      ∃ s3, (add_to_stat_manual F (set_stat_manual s id (.duration x)) id
            (.duration y)).bind
            (fun s2 => sub_from_stat_manual F s2 id (.duration y))
          = some s3 ∧
        get_stat_downcast s3 id .duration = some (.duration x)) := by
  refine ⟨?_, ?_, ?_, ?_, ?_, ?_, ?_, ?_, ?_, ?_, ?_⟩
  · intro x y hxy
    refine set_add_sub_slot F s id (.u8 x) (.u8 y) (.u8 (x + y)) (.u8 x)
      ?_ ?_
    · show some (StatData.u8 (min (x + y) u8Max)) = some (StatData.u8 (x + y))
      rw [Nat.min_eq_left hxy]
    · show some (StatData.u8 (x + y - y)) = some (StatData.u8 x)
      rw [Nat.add_sub_cancel]
  · intro x y hxy
    refine set_add_sub_slot F s id (.u16 x) (.u16 y) (.u16 (x + y)) (.u16 x)
      ?_ ?_
    · show some (StatData.u16 (min (x + y) u16Max))
        = some (StatData.u16 (x + y))
      rw [Nat.min_eq_left hxy]
    · show some (StatData.u16 (x + y - y)) = some (StatData.u16 x)
      rw [Nat.add_sub_cancel]
  · intro x y hxy
    refine set_add_sub_slot F s id (.u32 x) (.u32 y) (.u32 (x + y)) (.u32 x)
      ?_ ?_
    · show some (StatData.u32 (min (x + y) u32Max))
        = some (StatData.u32 (x + y))
      rw [Nat.min_eq_left hxy]
    · show some (StatData.u32 (x + y - y)) = some (StatData.u32 x)
      rw [Nat.add_sub_cancel]
  · intro x y hxy
    refine set_add_sub_slot F s id (.u64 x) (.u64 y) (.u64 (x + y)) (.u64 x)
      ?_ ?_
    · show some (StatData.u64 (min (x + y) u64Max))
        = some (StatData.u64 (x + y))
      rw [Nat.min_eq_left hxy]
    · show some (StatData.u64 (x + y - y)) = some (StatData.u64 x)
      rw [Nat.add_sub_cancel]
  · intro x y hxy
    refine set_add_sub_slot F s id (.u128 x) (.u128 y) (.u128 (x + y))
      (.u128 x) ?_ ?_
    · show some (StatData.u128 (min (x + y) u128Max))
        = some (StatData.u128 (x + y))
      rw [Nat.min_eq_left hxy]
    · show some (StatData.u128 (x + y - y)) = some (StatData.u128 x)
      rw [Nat.add_sub_cancel]
  · intro x y hx1 hx2 hxy1 hxy2
    refine set_add_sub_slot F s id (.i8 x) (.i8 y) (.i8 (x + y)) (.i8 x)
      ?_ ?_
    · show some (StatData.i8 (wrapInt 8 (x + y)))
        = some (StatData.i8 (x + y))
      rw [wrapInt_eq_self 8 (by norm_num) (x + y) hxy1 hxy2]
    · show some (StatData.i8 (wrapInt 8 (x + y - y)))
        = some (StatData.i8 x)
      rw [add_sub_cancel_right, wrapInt_eq_self 8 (by norm_num) x hx1 hx2]
  · intro x y hx1 hx2 hxy1 hxy2
    refine set_add_sub_slot F s id (.i16 x) (.i16 y) (.i16 (x + y)) (.i16 x)
      ?_ ?_
    · show some (StatData.i16 (wrapInt 16 (x + y)))
        = some (StatData.i16 (x + y))
      rw [wrapInt_eq_self 16 (by norm_num) (x + y) hxy1 hxy2]
    · show some (StatData.i16 (wrapInt 16 (x + y - y)))
        = some (StatData.i16 x)
      rw [add_sub_cancel_right, wrapInt_eq_self 16 (by norm_num) x hx1 hx2]
  · intro x y hx1 hx2 hxy1 hxy2
    refine set_add_sub_slot F s id (.i32 x) (.i32 y) (.i32 (x + y)) (.i32 x)
      ?_ ?_
    · show some (StatData.i32 (wrapInt 32 (x + y)))
        = some (StatData.i32 (x + y))
      rw [wrapInt_eq_self 32 (by norm_num) (x + y) hxy1 hxy2]
    · show some (StatData.i32 (wrapInt 32 (x + y - y)))
        = some (StatData.i32 x)
      rw [add_sub_cancel_right, wrapInt_eq_self 32 (by norm_num) x hx1 hx2]
  · intro x y hx1 hx2 hxy1 hxy2
    refine set_add_sub_slot F s id (.i64 x) (.i64 y) (.i64 (x + y)) (.i64 x)
      ?_ ?_
    · show some (StatData.i64 (wrapInt 64 (x + y)))
        = some (StatData.i64 (x + y))
      rw [wrapInt_eq_self 64 (by norm_num) (x + y) hxy1 hxy2]
    · show some (StatData.i64 (wrapInt 64 (x + y - y)))
        = some (StatData.i64 x)
      rw [add_sub_cancel_right, wrapInt_eq_self 64 (by norm_num) x hx1 hx2]
  · intro x y hx1 hx2 hxy1 hxy2
    refine set_add_sub_slot F s id (.i128 x) (.i128 y) (.i128 (x + y))
      (.i128 x) ?_ ?_
    · show some (StatData.i128 (wrapInt 128 (x + y)))
        = some (StatData.i128 (x + y))
      rw [wrapInt_eq_self 128 (by norm_num) (x + y) hxy1 hxy2]
    · show some (StatData.i128 (wrapInt 128 (x + y - y)))
        = some (StatData.i128 x)
      rw [add_sub_cancel_right, wrapInt_eq_self 128 (by norm_num) x hx1 hx2]
  · intro x y hxy
    refine set_add_sub_slot F s id (.duration x) (.duration y)
      (.duration (x + y)) (.duration x) ?_ ?_
    · rw [add_duration_eq]
      simp [hxy]
    · rw [sub_duration_eq]
      simp [Nat.le_add_left y x, Nat.add_sub_cancel]

/-- Witness for C5 at a concrete input: `set 3u8; add 4u8; sub 4u8`
ends with the slot holding 3. -/
theorem add_sub_cancellation_witness :
    ∃ s3, (add_to_stat_manual fopsArb (set_stat_manual [] "k" (.u8 3)) "k"
          (.u8 4)).bind (fun s2 => sub_from_stat_manual fopsArb s2 "k"
          (.u8 4)) = some s3 ∧
      get_stat_downcast s3 "k" .u8 = some (.u8 3) :=
  (add_sub_cancellation fopsArb [] "k").1 3 4 (by decide)

theorem foldl_bind_none (F : FloatOps) (evs : List ModifyStat) :
    evs.foldl (fun acc ev => acc.bind fun st => handle_one_event F st ev)
      none = none := by
  induction evs with
  | nil => rfl
  | cons e rest ih => simpa using ih

theorem handle_one_eq_spec (F : FloatOps) (s : Stats) (e : ModifyStat) :
    handle_one_event F s e
      = applyModSpec F s e.stat_id e.modification_type := by
  obtain ⟨sid, mt⟩ := e
  cases mt <;> rfl

theorem handle_cons (F : FloatOps) (s : Stats) (e : ModifyStat)
    (rest : List ModifyStat) :
    handle_stat_modifications F s (e :: rest)
      = (handle_one_event F s e).bind
          (fun s' => handle_stat_modifications F s' rest) := by
  unfold handle_stat_modifications
  simp only [List.foldl_cons, Option.some_bind]
  cases hh : handle_one_event F s e with
  | none => simpa using foldl_bind_none F rest
  | some s' => rfl

/-- Claim C9: the event drain applies the submitted verbs left-to-right,
each exactly once, in a single pass: running the drain system of
src/events.rs over a pending event list produces exactly the state of
the spec-modelled sequential application of the §4.2 primitives in
submission order. -/
theorem events_applied_in_order (F : FloatOps) (s : Stats)
    (evs : List ModifyStat) :
    handle_stat_modifications F s evs = applyEventsSpec F s evs := by
  induction evs generalizing s with
  | nil => rfl
  | cons e rest ih =>
      rw [handle_cons F s e rest, handle_one_eq_spec F s e]
      show (applyModSpec F s e.stat_id e.modification_type).bind
          (fun s' => handle_stat_modifications F s' rest)
        = match applyModSpec F s e.stat_id e.modification_type with
          | none => none
          | some s' => applyEventsSpec F s' rest
      cases ha : applyModSpec F s e.stat_id e.modification_type with
      | none => rfl
      | some s' =>
          show handle_stat_modifications F s' rest = applyEventsSpec F s' rest
          exact ih s'
